import Mathlib

/-!
Shallow embedding of the continuous-collision step of the 2D physics world
in gaming_framework/physics/world.py, together with theorems settling the
frozen claims about it.

Coordinates, velocities, radii, masses and times are modelled as exact real
numbers.  The Python code computes with IEEE floats; the one place where the
float semantics is observable on the real-number model is a division whose
divisor can be zero (the time-of-impact solver divides by 2*a): numpy floats
turn that into NaN rather than raising, and the NaN then fails every
comparison.  We model that non-real outcome as Option.none and propagate it
the way NaN propagates through the comparisons of the source.

Body, BodyPair, the geometry shapes and the spatial structures are external
collaborators of world.py (their modules are not part of the sources);
definitions for them below are modelled from the spec (sections 3 and 6)
and are marked as such.
-/

noncomputable section
open scoped Classical

/-- Modelled from the spec: a 2D point (geometry.shape.Point2D, external).
The spec treats a point as its own center, which is how world.py line 32
reads new_pos.center for a Point2D. -/
@[ext]
structure Point2D where
  x : ℝ
  y : ℝ

/-- Modelled from the spec: an axis-aligned rectangle given by its top-left
and bottom-right corners (geometry.shape.Rectangle, external); the y axis
points up, so top_left.y is the larger y coordinate in the intended use. -/
@[ext]
structure Rectangle where
  top_left : Point2D
  bottom_right : Point2D

/-- Modelled from the spec, section 6 (Body capability contract): position,
velocity, mass, a circular bounding volume (whose center is the body's
position), and the is_static / is_tangible flags.  bid is the Python object
identity under which dictionaries key the body. -/
@[ext]
structure Body where
  bid : ℕ
  position : Point2D
  speed : Point2D
  radius : ℝ
  mass : ℝ
  is_static : Bool
  is_tangible : Bool

/-- Modelled from the spec, section 6: predict_position(dt) is the position
after dt at the current velocity, side-effect free. -/
def predict_position (b : Body) (dt : ℝ) : Point2D :=
  ⟨b.position.x + b.speed.x * dt, b.position.y + b.speed.y * dt⟩

/-- Modelled from the spec, section 6: update(dt) advances the body's own
simulated state by dt, integrating position from velocity. -/
def body_update (b : Body) (dt : ℝ) : Body :=
  { b with position := predict_position b dt }

/-- Modelled from the spec, section 6 (shape contract): exact overlap test of
the two circular shapes; touching circles count as in contact, which is the
configuration produced by validating a candidate at its own time of impact. -/
def circles_collide (c1 : Point2D) (r1 : ℝ) (c2 : Point2D) (r2 : ℝ) : Prop :=
  (c1.x - c2.x) ^ 2 + (c1.y - c2.y) ^ 2 ≤ (r1 + r2) ^ 2

/-- Modelled from the spec, section 6 (spatial structure contract): the query
overlap relation between two rectangles held by the movement index. -/
def rect_overlap (r1 r2 : Rectangle) : Prop :=
  r1.top_left.x ≤ r2.bottom_right.x ∧ r2.top_left.x ≤ r1.bottom_right.x ∧
  r1.bottom_right.y ≤ r2.top_left.y ∧ r2.bottom_right.y ≤ r1.top_left.y

/-- Modelled from the spec, section 6 (spatial structure contract): overlap of
a body's circular bounding region with a query rectangle, tested through the
circle's axis-aligned bounding box. -/
def circle_rect_overlap (c : Point2D) (r : ℝ) (rect : Rectangle) : Prop :=
  rect.top_left.x ≤ c.x + r ∧ c.x - r ≤ rect.bottom_right.x ∧
  rect.bottom_right.y ≤ c.y + r ∧ c.y - r ≤ rect.top_left.y

/-- Unordered equality of body pairs.  Modelled from the spec, section 3:
BodyPair equality and membership are independent of argument order. -/
def pair_eq (p q : ℕ × ℕ) : Prop :=
  (p.1 = q.1 ∧ p.2 = q.2) ∨ (p.1 = q.2 ∧ p.2 = q.1)

/-- Membership of an unordered pair in a list of pairs, used by the
per-query dedup lists of world.py lines 110 and 124. -/
def pair_mem : List (ℕ × ℕ) → ℕ × ℕ → Prop
  | [], _ => False
  | q :: rest, p => pair_eq p q ∨ pair_mem rest p

/-- Number of queue entries carrying a given unordered pair. -/
def pair_count : List (ℝ × ℕ × ℕ) → ℕ × ℕ → ℕ
  | [], _ => 0
  | e :: rest, p => (if pair_eq e.2 p then 1 else 0) + pair_count rest p

/-- The expanded square of the radius sum, world.py lines 42 to 46
(the local variable named distance). -/
def toc_distance (p q : Body) : ℝ :=
  p.radius ^ 2 + 2 * p.radius * q.radius + q.radius ^ 2

/-- Quadratic coefficient a of the time-of-impact equation, world.py
lines 47 to 49: the squared norm of the relative velocity. -/
def toc_a (p q : Body) : ℝ :=
  (p.speed.x - q.speed.x) * (p.speed.x - q.speed.x) +
  (p.speed.y - q.speed.y) * (p.speed.y - q.speed.y)

/-- Linear coefficient b, world.py lines 50 to 55. -/
def toc_b (p q : Body) : ℝ :=
  2 * ((p.position.x - q.position.x) * (p.speed.x - q.speed.x) +
       (p.position.y - q.position.y) * (p.speed.y - q.speed.y))

/-- Constant coefficient c, world.py lines 56 to 62. -/
def toc_c (p q : Body) : ℝ :=
  (p.position.x - q.position.x) * (p.position.x - q.position.x) +
  (p.position.y - q.position.y) * (p.position.y - q.position.y) -
  toc_distance p q

/-- Discriminant delta, world.py line 63. -/
def toc_delta (p q : Body) : ℝ :=
  toc_b p q ^ 2 - 4 * toc_a p q * toc_c p q

/-- Root t1, world.py line 67 (meaningful when toc_a p q is nonzero). -/
def toc_t1 (p q : Body) : ℝ :=
  (-toc_b p q - Real.sqrt (toc_delta p q)) / (2 * toc_a p q)

/-- Root t2, world.py line 68. -/
def toc_t2 (p q : Body) : ℝ :=
  (-toc_b p q + Real.sqrt (toc_delta p q)) / (2 * toc_a p q)

/-- World.__time_of_collision, world.py lines 41 to 71, translated over exact
reals.  The source has no guard for a = 0 (identical velocities): there the
roots are computed as 0/0, which numpy floats turn into NaN; the NaN then
fails the comparisons of line 69 and is returned as t1.  That non-real
result is modelled as none; every other path yields a real number and is
modelled as some.  (When toc_a is 0 the relative velocity is the zero
vector, hence toc_b is 0 and toc_delta is 0, so the delta < 0 branch is
never the one taken in that degenerate case.) -/
def time_of_collision (p q : Body) : Option ℝ :=
  if toc_delta p q < 0 then some (-1)
  else if toc_a p q = 0 then none
  else if toc_t1 p q < 0 ∧ 0 < toc_t2 p q ∧ toc_b p q ≤ 0 then some 0
  else some (toc_t1 p q)

/-- Lookup in an association list keyed by body identity.  Python dicts keyed
by Body objects are modelled as insertion-ordered association lists. -/
def alist_lookup {α : Type} : List (ℕ × α) → ℕ → Option α
  | [], _ => none
  | (k, v) :: rest, i => if k = i then some v else alist_lookup rest i

/-- Insertion into an association list: overwrite in place when the key is
present (Python dict assignment keeps the original position), append when it
is absent. -/
def alist_upsert {α : Type} : List (ℕ × α) → ℕ → α → List (ℕ × α)
  | [], i, v => [(i, v)]
  | (k, w) :: rest, i, v =>
      if k = i then (i, v) :: rest else (k, w) :: alist_upsert rest i v

/-- A body's moving record, world.py line 95: the tuple of start position,
predicted end position, and the rectangle of its swept proxy body. -/
abbrev MovingRecord : Type := Point2D × Point2D × Rectangle

/-- The per-tick state of physics.world.World.  bodies models the static
spatial index together with the mutable Body objects it holds (keyed by
identity, in insertion order); moving_bodies models _moving_bodies;
movement_index models _movement_spatial_struct together with the reverse
table _sweept_bodies (each inserted swept proxy is recorded with the
identity of its originating body: the proxies are fresh objects, one per
record, so the originating body's identity identifies them); the queue
_collision_candidates holds (time, pair) entries; events records every
handle_collision callback as (receiver, argument), modelling the external
collision-response capability of spec section 6. -/
@[ext]
structure World where
  bodies : List (ℕ × Body)
  moving_bodies : List (ℕ × MovingRecord)
  movement_index : List (ℕ × Rectangle)
  collision_candidates : List (ℝ × ℕ × ℕ)
  events : List (ℕ × ℕ)

/-- Placeholder body for a lookup of an identity the index does not hold;
never reached by the flows of world.py (Python would raise KeyError). -/
def default_body : Body := ⟨0, ⟨0, 0⟩, ⟨0, 0⟩, 0, 0, true, false⟩

/-- Dereference a body identity against the spatial index. -/
def get_body (w : World) (i : ℕ) : Body :=
  match alist_lookup w.bodies i with
  | some b => b
  | none => default_body

/-- Mutation of a Body object in place, reflected into every structure that
holds it (the index holds the object itself). -/
def set_body (w : World) (i : ℕ) (b : Body) : World :=
  { w with bodies := w.bodies.map fun p => if p.1 = i then (i, b) else p }

/-- World.__calculate_sweept_body, world.py lines 29 to 39: the swept proxy
rectangle spans from the top-left extreme of the bounding circle at the
current position to the bottom-right extreme of the circle at the predicted
position. -/
def calculate_sweept_body (b : Body) (new_pos : Point2D) : Rectangle :=
  ⟨⟨b.position.x - b.radius, b.position.y + b.radius⟩,
   ⟨new_pos.x + b.radius, new_pos.y - b.radius⟩⟩

/-- World.__push_to_collision_candidates, world.py lines 73 to 78: compute
the time of impact and enqueue the pair when it lies in the window; the NaN
result (none) fails the comparison of line 77 exactly as NaN does. -/
def push_to_collision_candidates (w : World) (pa pb : ℕ)
    (delta_time start_time : ℝ) : World :=
  match time_of_collision (get_body w pa) (get_body w pb) with
  | none => w
  | some toc =>
      if 0 ≤ toc ∧ toc ≤ start_time + delta_time then
        { w with collision_candidates := w.collision_candidates ++ [(toc, pa, pb)] }
      else w

/-- World.__remove_moving_body, world.py lines 80 to 86: a no-op when the
body has no record; otherwise delete the record, the reverse-table entry and
the swept proxy.  The reachable states hold at most one proxy per body, so
removing the record's proxy object is removal of the entries keyed by the
body's identity. -/
def remove_moving_body (w : World) (i : ℕ) : World :=
  match alist_lookup w.moving_bodies i with
  | none => w
  | some _ =>
      { w with
        moving_bodies := w.moving_bodies.filter fun p => p.1 ≠ i
        movement_index := w.movement_index.filter fun e => e.1 ≠ i }

/-- World.__predict_movement, world.py lines 88 to 97: skip static bodies and
bodies predicted to stay in place; otherwise build the swept proxy, register
the moving record and insert the proxy into the movement index. -/
def predict_movement (w : World) (i : ℕ) (dt : ℝ) : World :=
  let b := get_body w i
  if b.is_static then w
  else
    let new_pos := predict_position b dt
    if new_pos = b.position then w
    else
      let rect := calculate_sweept_body b new_pos
      { w with
        moving_bodies := alist_upsert w.moving_bodies i (b.position, new_pos, rect)
        movement_index := w.movement_index ++ [(i, rect)] }

/-- The generator-and-dedup loop of World.__query_collisions_with_moving_bodies,
world.py lines 103 to 112, walking the movement-index entries returned in
index order by the spatial query.  An entry is a hit when its rectangle
overlaps the querying proxy's rectangle; the source then skips the querying
proxy itself (compared by object identity, here the pair of owner identity
and rectangle) and any entry whose originating body is the querying body,
dedups against the pairs already seen in this query, and pushes. -/
def query_moving_loop (i : ℕ) (dt st : ℝ) (rect : Rectangle) :
    List (ℕ × Rectangle) → List (ℕ × ℕ) → World → World
  | [], _, w => w
  | e :: rest, pairs, w =>
      if rect_overlap e.2 rect ∧ ¬(e.1 = i ∧ e.2 = rect) ∧ ¬(e.1 = i) then
        if pair_mem pairs (i, e.1) then
          query_moving_loop i dt st rect rest pairs w
        else
          query_moving_loop i dt st rect rest ((i, e.1) :: pairs)
            (push_to_collision_candidates w i e.1 dt st)
      else query_moving_loop i dt st rect rest pairs w

/-- World.__query_collisions_with_moving_bodies, world.py lines 99 to 112.
The callers guarantee the body holds a record (Python would raise KeyError
otherwise). -/
def query_collisions_with_moving_bodies (w : World) (i : ℕ) (dt st : ℝ) : World :=
  match alist_lookup w.moving_bodies i with
  | none => w
  | some r => query_moving_loop i dt st r.2.2 w.movement_index [] w

/-- The generator-and-dedup loop of World.__query_collisions_with_static_bodies,
world.py lines 118 to 126, walking the bodies of the static spatial index in
index order.  A body is a hit when its circular bounding region overlaps the
querying proxy's rectangle; bodies holding a moving record are excluded, the
result is deduped per query, and each remaining pair is pushed. -/
def query_static_loop (i : ℕ) (dt st : ℝ) (rect : Rectangle) :
    List (ℕ × Body) → List (ℕ × ℕ) → World → World
  | [], _, w => w
  | e :: rest, pairs, w =>
      if circle_rect_overlap e.2.position e.2.radius rect ∧
          alist_lookup w.moving_bodies e.1 = none then
        if pair_mem pairs (i, e.1) then
          query_static_loop i dt st rect rest pairs w
        else
          query_static_loop i dt st rect rest ((i, e.1) :: pairs)
            (push_to_collision_candidates w i e.1 dt st)
      else query_static_loop i dt st rect rest pairs w

/-- World.__query_collisions_with_static_bodies, world.py lines 114 to 126. -/
def query_collisions_with_static_bodies (w : World) (i : ℕ) (dt st : ℝ) : World :=
  match alist_lookup w.moving_bodies i with
  | none => w
  | some r => query_static_loop i dt st r.2.2 w.bodies [] w

/-- World.__update_collision_candidates, world.py lines 128 to 134: a no-op
for a body without a moving record; otherwise run both broad-phase queries. -/
def update_collision_candidates (w : World) (i : ℕ) (dt st : ℝ) : World :=
  match alist_lookup w.moving_bodies i with
  | none => w
  | some _ =>
      query_collisions_with_static_bodies
        (query_collisions_with_moving_bodies w i dt st) i dt st

/-- World.__handle_contact, world.py lines 136 to 143: remove both bodies'
records and proxies, then re-predict each of them for the remaining time
end_time - current_time. -/
def handle_contact (w : World) (a b : ℕ) (current_time end_time : ℝ) : World :=
  let w1 := remove_moving_body w a
  let w2 := remove_moving_body w1 b
  let remaining := end_time - current_time
  let w3 := predict_movement w2 a remaining
  predict_movement w3 b remaining

/-- The velocity pair computed by World.__update_body_forces, world.py lines
146 to 155, from the masses and the velocities both bodies carry on entry. -/
def exchanged_velocities (ba bb : Body) : Point2D × Point2D :=
  (⟨(ba.speed.x * ba.mass + bb.speed.x * bb.mass +
      (bb.speed.x - ba.speed.x) * bb.mass) / (ba.mass + bb.mass),
    (ba.speed.y * ba.mass + bb.speed.y * bb.mass +
      (bb.speed.y - ba.speed.y) * bb.mass) / (ba.mass + bb.mass)⟩,
   ⟨(ba.speed.x * ba.mass + bb.speed.x * bb.mass +
      (ba.speed.x - bb.speed.x) * bb.mass) / (ba.mass + bb.mass),
    (ba.speed.y * ba.mass + bb.speed.y * bb.mass +
      (ba.speed.y - bb.speed.y) * bb.mass) / (ba.mass + bb.mass)⟩)

/-- World.__update_body_forces, world.py lines 145 to 160, acting on the two
Body objects: both new velocities are computed from the incoming velocities,
then each is assigned only to a non-static body. -/
def update_body_forces (ba bb : Body) : Body × Body :=
  let v := exchanged_velocities ba bb
  (if ba.is_static then ba else { ba with speed := v.1 },
   if bb.is_static then bb else { bb with speed := v.2 })

/-- World.__resolve_collision, world.py lines 162 to 180.  When both bodies
are tangible: advance both by current_time minus the epsilon 1/100 taken
only at a zero time of impact, exchange velocities, and invalidate and
re-predict through handle_contact.  In every case both collision-response
callbacks fire, each receiving the other body. -/
def resolve_collision (w : World) (a b : ℕ)
    (toc current_time end_time : ℝ) : World :=
  if (get_body w a).is_tangible ∧ (get_body w b).is_tangible then
    let time_diff : ℝ := if toc = 0 then 1 / 100 else 0
    let w1 := set_body w a (body_update (get_body w a) (current_time - time_diff))
    let w2 := set_body w1 b (body_update (get_body w1 b) (current_time - time_diff))
    let v := update_body_forces (get_body w2 a) (get_body w2 b)
    let w3 := set_body (set_body w2 a v.1) b v.2
    let w4 := handle_contact w3 a b current_time end_time
    { w4 with events := w4.events ++ [(a, b), (b, a)] }
  else { w with events := w.events ++ [(a, b), (b, a)] }

/-- World.__check_collision, world.py lines 182 to 206: re-test the exact
shapes, interpolated to the position at the time of impact for bodies that
hold a moving record when that time is positive, and resolve on overlap. -/
def check_collision (w : World) (a b : ℕ)
    (toc current_time end_time : ℝ) : World :=
  let ba := get_body w a
  let bb := get_body w b
  let ca :=
    if (alist_lookup w.moving_bodies a).isSome ∧ 0 < toc then
      predict_position ba toc
    else ba.position
  let cb :=
    if (alist_lookup w.moving_bodies b).isSome ∧ 0 < toc then
      predict_position bb toc
    else bb.position
  if circles_collide ca ba.radius cb bb.radius then
    resolve_collision w a b toc current_time end_time
  else w

/-- Pop of the minimum-priority entry of the candidate queue.  heapq orders
by the time component; the tie-break between equal times compares BodyPair
values, which is modelled from the spec (section 9 leaves it open) as the
stable first-inserted-first choice. -/
def pop_min : List (ℝ × ℕ × ℕ) → Option ((ℝ × ℕ × ℕ) × List (ℝ × ℕ × ℕ))
  | [] => none
  | e :: rest =>
      match pop_min rest with
      | none => some (e, [])
      | some (m, rest') =>
          if e.1 ≤ m.1 then some (e, rest) else some (m, e :: rest')

/-- The drain loop of World.__detect_collisions, world.py lines 208 to 215,
with an explicit fuel argument bounding the iteration count.  current_time
starts at 0 and accumulates the time of impact of every popped candidate
after that candidate is processed.  Nothing in the loop body pushes to the
queue, so each iteration shrinks the queue by one and a fuel equal to the
initial queue length is never exhausted. -/
def detect_loop : ℕ → World → ℝ → ℝ → World
  | 0, w, _, _ => w
  | n + 1, w, current_time, dt =>
      match pop_min w.collision_candidates with
      | none => w
      | some (e, rest) =>
          detect_loop n
            (check_collision { w with collision_candidates := rest }
              e.2.1 e.2.2 e.1 current_time dt)
            (current_time + e.1) dt

/-- World.__detect_collisions, world.py lines 208 to 215. -/
def detect_collisions (w : World) (dt : ℝ) : World :=
  detect_loop w.collision_candidates.length w 0 dt

/-- The RESET step of World.update, world.py lines 221 to 224: all per-tick
transient state is discarded.  The callback event log is per-tick
instrumentation of the external collision handlers, cleared with it. -/
def reset_tick (w : World) : World :=
  { w with moving_bodies := [], movement_index := [],
           collision_candidates := [], events := [] }

/-- The PREDICT loop of World.update, world.py lines 225 to 226, over the
objects of the static spatial index in index order. -/
def predict_phase (w : World) (dt : ℝ) : World :=
  (w.bodies.map fun p => p.1).foldl (fun acc i => predict_movement acc i dt) w

/-- The BROADPHASE loop of World.update, world.py lines 227 to 228, over the
bodies holding a moving record, with start_time 0.  The loop body never
touches _moving_bodies, so iterating the snapshot of its keys is the
iteration of the live dict. -/
def broad_phase (w : World) (dt : ℝ) : World :=
  (w.moving_bodies.map fun p => p.1).foldl
    (fun acc i => update_collision_candidates acc i dt 0) w

/-- The COMMIT loop of World.update, world.py lines 230 to 231: every body
still holding a moving record advances by the full tick duration. -/
def commit_phase (w : World) (dt : ℝ) : World :=
  (w.moving_bodies.map fun p => p.1).foldl
    (fun acc i => set_body acc i (body_update (get_body acc i) dt)) w

/-- World.update, world.py lines 220 to 231: RESET, PREDICT, BROADPHASE,
RESOLVE, COMMIT. -/
def World.update (w : World) (dt : ℝ) : World :=
  commit_phase (detect_collisions (broad_phase (predict_phase (reset_tick w) dt) dt) dt) dt

/-- Concrete scenario: a tangible moving ball heading at a tangible static
ball.  Radius 5 circles at x = 0 and x = 30; the mover closes at speed 20,
so surfaces meet at time 1 inside a tick of duration 2. -/
def body_s0 : Body := ⟨0, ⟨0, 0⟩, ⟨20, 0⟩, 5, 1, false, true⟩

/-- The static target of the concrete moving-versus-static scenario. -/
def body_s1 : Body := ⟨1, ⟨30, 0⟩, ⟨0, 0⟩, 5, 3, true, true⟩

/-- Initial world of the moving-versus-static scenario. -/
def WS0 : World := ⟨[(0, body_s0), (1, body_s1)], [], [], [], []⟩

/-- Concrete scenario: two tangible moving balls on the x axis, the rear one
faster, closing at relative speed 10 with a surface gap of 20, so surfaces
meet at time 2 inside a tick of duration 2. -/
def body_t0 : Body := ⟨0, ⟨0, 0⟩, ⟨20, 0⟩, 5, 1, false, true⟩

/-- The slower front ball of the two-moving-balls scenario. -/
def body_t1 : Body := ⟨1, ⟨30, 0⟩, ⟨10, 0⟩, 5, 1, false, true⟩

/-- Initial world of the two-moving-balls scenario. -/
def WT0 : World := ⟨[(0, body_t0), (1, body_t1)], [], [], [], []⟩

/-- Concrete scenario: an intangible body overlapping a tangible one, used to
exercise notification-only resolution. -/
def body_u0 : Body := ⟨0, ⟨0, 0⟩, ⟨1, 0⟩, 5, 1, false, false⟩

/-- The tangible partner of the intangible-contact scenario. -/
def body_u1 : Body := ⟨1, ⟨4, 0⟩, ⟨0, 0⟩, 5, 1, false, true⟩

/-- Initial world of the intangible-contact scenario. -/
def WU0 : World := ⟨[(0, body_u0), (1, body_u1)], [], [], [], []⟩

/-- Moving-versus-static scenario after PREDICT: only the mover is tracked,
with start (0, 0), predicted end (40, 0), and its swept proxy. -/
def WS1 : World :=
  ⟨[(0, body_s0), (1, body_s1)],
   [(0, (⟨0, 0⟩, ⟨40, 0⟩, ⟨⟨-5, 5⟩, ⟨45, -5⟩⟩))],
   [(0, ⟨⟨-5, 5⟩, ⟨45, -5⟩⟩)], [], []⟩

/-- Moving-versus-static scenario after BROADPHASE: the static query produced
the single candidate at time of impact 1. -/
def WS2 : World :=
  ⟨[(0, body_s0), (1, body_s1)],
   [(0, (⟨0, 0⟩, ⟨40, 0⟩, ⟨⟨-5, 5⟩, ⟨45, -5⟩⟩))],
   [(0, ⟨⟨-5, 5⟩, ⟨45, -5⟩⟩)], [(1, 0, 1)], []⟩

/-- Moving-versus-static scenario after the RESOLVE drain: the mover's
velocity became (-10, 0) by the exchange against the mass-3 static body, its
record was re-predicted from position (0, 0) for the remaining time 2, and
both callbacks fired. -/
def WS3 : World :=
  ⟨[(0, ⟨0, ⟨0, 0⟩, ⟨-10, 0⟩, 5, 1, false, true⟩),
    (1, ⟨1, ⟨30, 0⟩, ⟨0, 0⟩, 5, 3, true, true⟩)],
   [(0, (⟨0, 0⟩, ⟨-20, 0⟩, ⟨⟨-5, 5⟩, ⟨-15, -5⟩⟩))],
   [(0, ⟨⟨-5, 5⟩, ⟨-15, -5⟩⟩)], [], [(0, 1), (1, 0)]⟩

/-- Moving-versus-static scenario after COMMIT: the resolved mover, still
holding a record, was advanced by the full tick duration once more. -/
def WS4 : World :=
  ⟨[(0, ⟨0, ⟨-20, 0⟩, ⟨-10, 0⟩, 5, 1, false, true⟩),
    (1, ⟨1, ⟨30, 0⟩, ⟨0, 0⟩, 5, 3, true, true⟩)],
   [(0, (⟨0, 0⟩, ⟨-20, 0⟩, ⟨⟨-5, 5⟩, ⟨-15, -5⟩⟩))],
   [(0, ⟨⟨-5, 5⟩, ⟨-15, -5⟩⟩)], [], [(0, 1), (1, 0)]⟩

/-- Two-moving-balls scenario after PREDICT: both balls tracked with their
swept proxies, which overlap each other. -/
def WT1 : World :=
  ⟨[(0, body_t0), (1, body_t1)],
   [(0, (⟨0, 0⟩, ⟨40, 0⟩, ⟨⟨-5, 5⟩, ⟨45, -5⟩⟩)),
    (1, (⟨30, 0⟩, ⟨50, 0⟩, ⟨⟨25, 5⟩, ⟨55, -5⟩⟩))],
   [(0, ⟨⟨-5, 5⟩, ⟨45, -5⟩⟩), (1, ⟨⟨25, 5⟩, ⟨55, -5⟩⟩)],
   [], []⟩

/-- Two-moving-balls scenario after BROADPHASE: the same unordered pair was
enqueued twice, once per initiating ball. -/
def WT2 : World :=
  ⟨[(0, body_t0), (1, body_t1)],
   [(0, (⟨0, 0⟩, ⟨40, 0⟩, ⟨⟨-5, 5⟩, ⟨45, -5⟩⟩)),
    (1, (⟨30, 0⟩, ⟨50, 0⟩, ⟨⟨25, 5⟩, ⟨55, -5⟩⟩))],
   [(0, ⟨⟨-5, 5⟩, ⟨45, -5⟩⟩), (1, ⟨⟨25, 5⟩, ⟨55, -5⟩⟩)],
   [(2, 0, 1), (2, 1, 0)], []⟩

lemma toc_distance_comm (p q : Body) : toc_distance p q = toc_distance q p := by
  unfold toc_distance; ring

lemma toc_a_comm (p q : Body) : toc_a p q = toc_a q p := by
  unfold toc_a; ring

lemma toc_b_comm (p q : Body) : toc_b p q = toc_b q p := by
  unfold toc_b; ring

lemma toc_c_comm (p q : Body) : toc_c p q = toc_c q p := by
  unfold toc_c toc_distance; ring

lemma toc_delta_comm (p q : Body) : toc_delta p q = toc_delta q p := by
  unfold toc_delta; rw [toc_a_comm, toc_b_comm, toc_c_comm]

lemma toc_t1_comm (p q : Body) : toc_t1 p q = toc_t1 q p := by
  unfold toc_t1; rw [toc_a_comm, toc_b_comm, toc_delta_comm]

lemma toc_t2_comm (p q : Body) : toc_t2 p q = toc_t2 q p := by
  unfold toc_t2; rw [toc_a_comm, toc_b_comm, toc_delta_comm]

/-- Claim C10: the time-of-impact computation is symmetric in its two
arguments, so the result does not depend on the order in which an unordered
body pair presents its members. -/
theorem claim10_time_of_collision_symmetric (p q : Body) :
    time_of_collision p q = time_of_collision q p := by
  unfold time_of_collision
  rw [toc_delta_comm p q, toc_a_comm p q, toc_b_comm p q, toc_t1_comm p q,
    toc_t2_comm p q]

/-- Claim C1: the claim asserts that the equal-velocity case a = 0 is
explicitly guarded so that no division by zero occurs, returning -1, or 0
when the bodies already overlap.  The code has no such guard: with identical
velocities every coefficient degenerates (a = 0, b = 0, delta = 0), the
delta < 0 branch is not taken, and the code computes t1 = (-0 - sqrt 0)/(2*0),
a division by zero whose numpy float value is NaN; the NaN fails the
comparison on line 69 and is returned.  This theorem proves that for every
pair with identical velocities the computation reaches that division by zero
and yields the non-real result (modelled as none), never -1 or 0 - including
for bodies already overlapping at t = 0. -/
theorem claim1_no_equal_velocity_guard (p q : Body) (h : p.speed = q.speed) :
    time_of_collision p q = none := by
  have ha : toc_a p q = 0 := by unfold toc_a; rw [h]; ring
  have hb : toc_b p q = 0 := by unfold toc_b; rw [h]; ring
  have hd : toc_delta p q = 0 := by unfold toc_delta; rw [ha, hb]; ring
  unfold time_of_collision
  rw [hd, ha]
  norm_num

/-- Witness for claim C1's theorem: two unit circles 10 apart, both moving
with velocity (1, 0); the solver result is the division-by-zero NaN, not the
sentinel -1 the claim requires. -/
theorem claim1_witness :
    time_of_collision ⟨0, ⟨0, 0⟩, ⟨1, 0⟩, 1, 1, false, true⟩
      ⟨1, ⟨10, 0⟩, ⟨1, 0⟩, 1, 1, false, true⟩ = none :=
  claim1_no_equal_velocity_guard _ _ rfl

/-- Claim C4: case analysis of the solver for nonzero relative velocity.
A negative discriminant returns the minus-one sentinel; with t1 negative,
t2 positive and b nonpositive (already overlapping and approaching) it
returns 0; otherwise it returns t1.  In particular, two circles of equal
radius r moving directly toward each other along a line (unit direction
(ux, uy)) with surface gap g and closing speed s collide at time g / s. -/
theorem claim4_time_of_collision_cases :
    (∀ p q : Body, toc_delta p q < 0 → time_of_collision p q = some (-1)) ∧
    (∀ p q : Body, ¬ toc_delta p q < 0 → toc_a p q ≠ 0 →
      toc_t1 p q < 0 → 0 < toc_t2 p q → toc_b p q ≤ 0 →
      time_of_collision p q = some 0) ∧
    (∀ p q : Body, ¬ toc_delta p q < 0 → toc_a p q ≠ 0 →
      ¬(toc_t1 p q < 0 ∧ 0 < toc_t2 p q ∧ toc_b p q ≤ 0) →
      time_of_collision p q = some (toc_t1 p q)) ∧
    (∀ (px py vx vy ux uy r s g m1 m2 : ℝ) (i1 i2 : ℕ) (st1 st2 tg1 tg2 : Bool),
      ux ^ 2 + uy ^ 2 = 1 → 0 < r → 0 < s → 0 ≤ g →
      time_of_collision ⟨i1, ⟨px, py⟩, ⟨vx, vy⟩, r, m1, st1, tg1⟩
        ⟨i2, ⟨px + (2 * r + g) * ux, py + (2 * r + g) * uy⟩,
          ⟨vx - s * ux, vy - s * uy⟩, r, m2, st2, tg2⟩ = some (g / s)) := by
  refine ⟨?_, ?_, ?_, ?_⟩
  · intro p q h
    unfold time_of_collision
    rw [if_pos h]
  · intro p q h1 h2 h3 h4 h5
    unfold time_of_collision
    rw [if_neg h1, if_neg h2, if_pos ⟨h3, h4, h5⟩]
  · intro p q h1 h2 h3
    unfold time_of_collision
    rw [if_neg h1, if_neg h2, if_neg h3]
  · intro px py vx vy ux uy r s g m1 m2 i1 i2 st1 st2 tg1 tg2 hu hr hs hg
    have ha : toc_a ⟨i1, ⟨px, py⟩, ⟨vx, vy⟩, r, m1, st1, tg1⟩
        ⟨i2, ⟨px + (2 * r + g) * ux, py + (2 * r + g) * uy⟩,
          ⟨vx - s * ux, vy - s * uy⟩, r, m2, st2, tg2⟩ = s ^ 2 := by
      unfold toc_a
      dsimp only
      linear_combination s ^ 2 * hu
    have hb : toc_b ⟨i1, ⟨px, py⟩, ⟨vx, vy⟩, r, m1, st1, tg1⟩
        ⟨i2, ⟨px + (2 * r + g) * ux, py + (2 * r + g) * uy⟩,
          ⟨vx - s * ux, vy - s * uy⟩, r, m2, st2, tg2⟩ = -(2 * s * (2 * r + g)) := by
      unfold toc_b
      dsimp only
      linear_combination (-(2 * s * (2 * r + g))) * hu
    have hc : toc_c ⟨i1, ⟨px, py⟩, ⟨vx, vy⟩, r, m1, st1, tg1⟩
        ⟨i2, ⟨px + (2 * r + g) * ux, py + (2 * r + g) * uy⟩,
          ⟨vx - s * ux, vy - s * uy⟩, r, m2, st2, tg2⟩ = g ^ 2 + 4 * r * g := by
      unfold toc_c toc_distance
      dsimp only
      linear_combination ((2 * r + g) ^ 2) * hu
    have hd : toc_delta ⟨i1, ⟨px, py⟩, ⟨vx, vy⟩, r, m1, st1, tg1⟩
        ⟨i2, ⟨px + (2 * r + g) * ux, py + (2 * r + g) * uy⟩,
          ⟨vx - s * ux, vy - s * uy⟩, r, m2, st2, tg2⟩ = 16 * s ^ 2 * r ^ 2 := by
      unfold toc_delta
      rw [ha, hb, hc]
      ring
    have hsq : Real.sqrt (16 * s ^ 2 * r ^ 2) = 4 * s * r := by
      rw [show (16 * s ^ 2 * r ^ 2 : ℝ) = (4 * s * r) ^ 2 by ring]
      exact Real.sqrt_sq (by positivity)
    have ht1 : toc_t1 ⟨i1, ⟨px, py⟩, ⟨vx, vy⟩, r, m1, st1, tg1⟩
        ⟨i2, ⟨px + (2 * r + g) * ux, py + (2 * r + g) * uy⟩,
          ⟨vx - s * ux, vy - s * uy⟩, r, m2, st2, tg2⟩ = g / s := by
      unfold toc_t1
      rw [ha, hb, hd, hsq]
      field_simp
      ring
    unfold time_of_collision
    rw [hd, ha, ht1]
    have h1 : ¬(16 * s ^ 2 * r ^ 2 < (0 : ℝ)) := not_lt.mpr (by positivity)
    have h2 : (s ^ 2 : ℝ) ≠ 0 := by positivity
    have h3 : ¬(g / s < 0 ∧ 0 < toc_t2 ⟨i1, ⟨px, py⟩, ⟨vx, vy⟩, r, m1, st1, tg1⟩
        ⟨i2, ⟨px + (2 * r + g) * ux, py + (2 * r + g) * uy⟩,
          ⟨vx - s * ux, vy - s * uy⟩, r, m2, st2, tg2⟩ ∧
        toc_b ⟨i1, ⟨px, py⟩, ⟨vx, vy⟩, r, m1, st1, tg1⟩
        ⟨i2, ⟨px + (2 * r + g) * ux, py + (2 * r + g) * uy⟩,
          ⟨vx - s * ux, vy - s * uy⟩, r, m2, st2, tg2⟩ ≤ 0) := by
      rintro ⟨hlt, -, -⟩
      exact absurd hlt (not_lt.mpr (div_nonneg hg hs.le))
    rw [if_neg h1, if_neg h2, if_neg h3]

/-- Witness for claim C4's theorem: the spec's worked example, radius 5
circles whose centers start 20 apart and close head-on at speed 10, gives
time of impact 1. -/
theorem claim4_witness :
    time_of_collision ⟨0, ⟨0, 0⟩, ⟨0, 0⟩, 5, 1, false, true⟩
      ⟨1, ⟨20, 0⟩, ⟨-10, 0⟩, 5, 1, false, true⟩ = some 1 := by
  have h := claim4_time_of_collision_cases.2.2.2 0 0 0 0 1 0 5 10 10 1 1 0 1
    false false true true (by norm_num) (by norm_num) (by norm_num) (by norm_num)
  norm_num at h
  exact h

lemma alist_lookup_upsert {α : Type} (l : List (ℕ × α)) (i : ℕ) (v : α) :
    alist_lookup (alist_upsert l i v) i = some v := by
  induction l with
  | nil => simp [alist_upsert, alist_lookup]
  | cons e rest ih =>
      by_cases h : e.1 = i <;>
        simp [alist_upsert, alist_lookup, h, ih]

/-- Claim C5: on resolution of a tangible contact the new velocity of each
non-static body is the mass-weighted exchange value computed from the masses
and the incoming velocities of both bodies, a static body is returned
untouched, and two equal-mass bodies meeting head-on with opposite
equal-magnitude velocities have their velocities swapped exactly. -/
theorem claim5_velocity_exchange :
    (∀ ba bb : Body, ba.is_static = false →
      (update_body_forces ba bb).1 =
        { ba with speed :=
            ⟨(ba.speed.x * ba.mass + bb.speed.x * bb.mass +
                (bb.speed.x - ba.speed.x) * bb.mass) / (ba.mass + bb.mass),
             (ba.speed.y * ba.mass + bb.speed.y * bb.mass +
                (bb.speed.y - ba.speed.y) * bb.mass) / (ba.mass + bb.mass)⟩ }) ∧
    (∀ ba bb : Body, bb.is_static = false →
      (update_body_forces ba bb).2 =
        { bb with speed :=
            ⟨(ba.speed.x * ba.mass + bb.speed.x * bb.mass +
                (ba.speed.x - bb.speed.x) * bb.mass) / (ba.mass + bb.mass),
             (ba.speed.y * ba.mass + bb.speed.y * bb.mass +
                (ba.speed.y - bb.speed.y) * bb.mass) / (ba.mass + bb.mass)⟩ }) ∧
    (∀ ba bb : Body, ba.is_static = true → (update_body_forces ba bb).1 = ba) ∧
    (∀ ba bb : Body, bb.is_static = true → (update_body_forces ba bb).2 = bb) ∧
    (∀ ba bb : Body, ba.is_static = false → bb.is_static = false →
      ba.mass = bb.mass → ba.mass ≠ 0 →
      bb.speed.x = -ba.speed.x → bb.speed.y = -ba.speed.y →
      (update_body_forces ba bb).1.speed = bb.speed ∧
      (update_body_forces ba bb).2.speed = ba.speed) := by
  refine ⟨?_, ?_, ?_, ?_, ?_⟩
  · intro ba bb h
    simp [update_body_forces, exchanged_velocities, h]
  · intro ba bb h
    simp [update_body_forces, exchanged_velocities, h]
  · intro ba bb h
    simp [update_body_forces, h]
  · intro ba bb h
    simp [update_body_forces, h]
  · intro ba bb hsa hsb hm hne hvx hvy
    have hmb : bb.mass ≠ 0 := by rw [← hm]; exact hne
    have hden : ba.mass + bb.mass ≠ 0 := by
      rw [hm]; intro h0; exact hmb (by linarith)
    constructor
    · simp only [update_body_forces, exchanged_velocities, hsa,
        Bool.false_eq_true, if_false]
      ext
      · show (ba.speed.x * ba.mass + bb.speed.x * bb.mass +
            (bb.speed.x - ba.speed.x) * bb.mass) / (ba.mass + bb.mass) = bb.speed.x
        rw [hvx, hm]
        rw [div_eq_iff (show bb.mass + bb.mass ≠ 0 by intro h0; exact hmb (by linarith))]
        ring
      · show (ba.speed.y * ba.mass + bb.speed.y * bb.mass +
            (bb.speed.y - ba.speed.y) * bb.mass) / (ba.mass + bb.mass) = bb.speed.y
        rw [hvy, hm]
        rw [div_eq_iff (show bb.mass + bb.mass ≠ 0 by intro h0; exact hmb (by linarith))]
        ring
    · simp only [update_body_forces, exchanged_velocities, hsb,
        Bool.false_eq_true, if_false]
      ext
      · show (ba.speed.x * ba.mass + bb.speed.x * bb.mass +
            (ba.speed.x - bb.speed.x) * bb.mass) / (ba.mass + bb.mass) = ba.speed.x
        rw [hvx, hm]
        rw [div_eq_iff (show bb.mass + bb.mass ≠ 0 by intro h0; exact hmb (by linarith))]
        ring
      · show (ba.speed.y * ba.mass + bb.speed.y * bb.mass +
            (ba.speed.y - bb.speed.y) * bb.mass) / (ba.mass + bb.mass) = ba.speed.y
        rw [hvy, hm]
        rw [div_eq_iff (show bb.mass + bb.mass ≠ 0 by intro h0; exact hmb (by linarith))]
        ring

/-- Witness for claim C5's theorem: equal unit masses with velocities (3, 4)
and (-3, -4) are swapped exactly by the resolver. -/
theorem claim5_witness :
    (update_body_forces ⟨0, ⟨0, 0⟩, ⟨3, 4⟩, 1, 1, false, true⟩
        ⟨1, ⟨7, 0⟩, ⟨-3, -4⟩, 1, 1, false, true⟩).1.speed =
      (⟨-3, -4⟩ : Point2D) ∧
    (update_body_forces ⟨0, ⟨0, 0⟩, ⟨3, 4⟩, 1, 1, false, true⟩
        ⟨1, ⟨7, 0⟩, ⟨-3, -4⟩, 1, 1, false, true⟩).2.speed =
      (⟨3, 4⟩ : Point2D) :=
  claim5_velocity_exchange.2.2.2.2
    ⟨0, ⟨0, 0⟩, ⟨3, 4⟩, 1, 1, false, true⟩
    ⟨1, ⟨7, 0⟩, ⟨-3, -4⟩, 1, 1, false, true⟩
    rfl rfl rfl (by norm_num) (by norm_num) (by norm_num)

/-- Claim C7: when a popped candidate passes the narrow-phase overlap test
but at least one body is intangible, resolution only fires the two
collision-response callbacks, each with the other body as argument; the
bodies, the moving records, the movement index and the candidate queue are
all left untouched. -/
theorem claim7_intangible_notification (w : World) (a b : ℕ)
    (toc current_time end_time : ℝ)
    (h : ¬((get_body w a).is_tangible = true ∧ (get_body w b).is_tangible = true)) :
    resolve_collision w a b toc current_time end_time =
      { w with events := w.events ++ [(a, b), (b, a)] } := by
  unfold resolve_collision
  rw [if_neg h]

/-- Witness for claim C7's theorem: the intangible-contact scenario, whose
resolution appends exactly the two callback events and changes nothing
else. -/
theorem claim7_witness :
    ¬((get_body WU0 0).is_tangible = true ∧ (get_body WU0 1).is_tangible = true) ∧
    resolve_collision WU0 0 1 0 0 1 =
      { WU0 with events := WU0.events ++ [(0, 1), (1, 0)] } := by
  have h : ¬((get_body WU0 0).is_tangible = true ∧
      (get_body WU0 1).is_tangible = true) := by
    simp [get_body, alist_lookup, WU0, body_u0, body_u1]
  exact ⟨h, claim7_intangible_notification WU0 0 1 0 0 1 h⟩

/-- Claim C8: the swept proxy rectangle of a moving body with bounding circle
radius r, start position s and predicted end position e is exactly the
rectangle with top s.y + r, left s.x - r, bottom e.y - r, right e.x + r;
and movement prediction stores exactly that rectangle in the body's moving
record and inserts it into the movement index. -/
theorem claim8_swept_proxy :
    (∀ (b : Body) (new_pos : Point2D),
      calculate_sweept_body b new_pos =
        ⟨⟨b.position.x - b.radius, b.position.y + b.radius⟩,
         ⟨new_pos.x + b.radius, new_pos.y - b.radius⟩⟩) ∧
    (∀ (w : World) (i : ℕ) (dt : ℝ),
      (get_body w i).is_static = false →
      predict_position (get_body w i) dt ≠ (get_body w i).position →
      alist_lookup (predict_movement w i dt).moving_bodies i =
        some ((get_body w i).position, predict_position (get_body w i) dt,
          calculate_sweept_body (get_body w i) (predict_position (get_body w i) dt)) ∧
      (i, calculate_sweept_body (get_body w i) (predict_position (get_body w i) dt)) ∈
        (predict_movement w i dt).movement_index) := by
  constructor
  · intro b new_pos
    rfl
  · intro w i dt h1 h2
    simp only [predict_movement, h1, Bool.false_eq_true, if_false, if_neg h2]
    exact ⟨alist_lookup_upsert _ _ _, List.mem_append_right _ (by simp)⟩

lemma alist_upsert_mem {α : Type} (l : List (ℕ × α)) (i : ℕ) (v : α) (p : ℕ × α)
    (h : p ∈ alist_upsert l i v) : p = (i, v) ∨ p ∈ l := by
  induction l with
  | nil =>
      simp only [alist_upsert, List.mem_singleton] at h
      exact Or.inl h
  | cons e rest ih =>
      obtain ⟨k, w⟩ := e
      by_cases hk : k = i
      · simp only [alist_upsert, if_pos hk] at h
        rcases List.mem_cons.mp h with h1 | h1
        · exact Or.inl h1
        · exact Or.inr (List.mem_cons_of_mem _ h1)
      · simp only [alist_upsert, if_neg hk] at h
        rcases List.mem_cons.mp h with h1 | h1
        · exact Or.inr (h1 ▸ List.mem_cons_self _ _)
        · rcases ih h1 with h2 | h2
          · exact Or.inl h2
          · exact Or.inr (List.mem_cons_of_mem _ h2)

lemma alist_lookup_map_replace (l : List (ℕ × Body)) (i : ℕ) (b : Body) (j : ℕ) :
    alist_lookup (l.map fun p => if p.1 = i then (i, b) else p) j =
      if j = i then Option.map (fun _ => b) (alist_lookup l j)
      else alist_lookup l j := by
  induction l with
  | nil => by_cases hj : j = i <;> simp [alist_lookup, hj]
  | cons e rest ih =>
      obtain ⟨k, v⟩ := e
      simp only [List.map_cons]
      by_cases hk : k = i
      · rw [if_pos hk]
        simp only [alist_lookup]
        by_cases hj : j = i
        · rw [if_pos hj, if_pos (hk.trans hj.symm), if_pos hj.symm]
          rfl
        · rw [if_neg (fun h : i = j => hj h.symm), if_neg hj,
            if_neg (fun h : k = j => hj (h.symm.trans hk)), ih, if_neg hj]
      · rw [if_neg hk]
        simp only [alist_lookup]
        by_cases hkj : k = j
        · rw [if_pos hkj, if_pos hkj, if_neg (fun h : j = i => hk (hkj.trans h))]
        · rw [if_neg hkj, if_neg hkj, ih]

lemma get_body_set_body_is_static (w : World) (i : ℕ) (b : Body)
    (h : b.is_static = (get_body w i).is_static) (j : ℕ) :
    (get_body (set_body w i b) j).is_static = (get_body w j).is_static := by
  unfold get_body set_body at *
  dsimp only at *
  rw [alist_lookup_map_replace]
  by_cases hj : j = i
  · subst hj
    cases hl : alist_lookup w.bodies j <;> rw [hl] at h <;> simp [hl, h]
  · simp [hj]

/-- During a tick no static body ever holds a moving record or a swept proxy
in the movement index: the invariant of claim C9. -/
def static_free (w : World) : Prop :=
  (∀ p ∈ w.moving_bodies, (get_body w p.1).is_static = false) ∧
  (∀ e ∈ w.movement_index, (get_body w e.1).is_static = false)

lemma static_free_set_body (w : World) (i : ℕ) (b : Body)
    (h : b.is_static = (get_body w i).is_static) (hw : static_free w) :
    static_free (set_body w i b) := by
  constructor
  · intro p hp
    rw [get_body_set_body_is_static w i b h]
    exact hw.1 p hp
  · intro e he
    rw [get_body_set_body_is_static w i b h]
    exact hw.2 e he

lemma static_free_predict_movement (w : World) (i : ℕ) (dt : ℝ)
    (hw : static_free w) : static_free (predict_movement w i dt) := by
  unfold predict_movement
  by_cases hs : (get_body w i).is_static
  · rw [if_pos hs]
    exact hw
  · rw [if_neg hs]
    by_cases heq : predict_position (get_body w i) dt = (get_body w i).position
    · rw [if_pos heq]
      exact hw
    · rw [if_neg heq]
      have hsf : (get_body w i).is_static = false := Bool.eq_false_iff.mpr hs
      constructor
      · intro p hp
        rcases alist_upsert_mem _ _ _ _ hp with h1 | h1
        · rw [h1]
          exact hsf
        · exact hw.1 p h1
      · intro e he
        rcases List.mem_append.mp he with h1 | h1
        · exact hw.2 e h1
        · rw [List.mem_singleton.mp h1]
          exact hsf

lemma static_free_remove_moving_body (w : World) (i : ℕ)
    (hw : static_free w) : static_free (remove_moving_body w i) := by
  unfold remove_moving_body
  cases alist_lookup w.moving_bodies i with
  | none => exact hw
  | some r =>
      constructor
      · intro p hp
        exact hw.1 p (List.mem_of_mem_filter hp)
      · intro e he
        exact hw.2 e (List.mem_of_mem_filter he)

lemma static_free_push (w : World) (pa pb : ℕ) (dt st : ℝ)
    (hw : static_free w) :
    static_free (push_to_collision_candidates w pa pb dt st) := by
  unfold push_to_collision_candidates
  cases time_of_collision (get_body w pa) (get_body w pb) with
  | none => exact hw
  | some toc =>
      dsimp only
      split
      · exact hw
      · exact hw

lemma static_free_query_moving_loop (i : ℕ) (dt st : ℝ) (rect : Rectangle)
    (entries : List (ℕ × Rectangle)) (pairs : List (ℕ × ℕ)) (w : World)
    (hw : static_free w) :
    static_free (query_moving_loop i dt st rect entries pairs w) := by
  induction entries generalizing pairs w with
  | nil => exact hw
  | cons e rest ih =>
      unfold query_moving_loop
      split
      · split
        · exact ih pairs w hw
        · exact ih _ _ (static_free_push w i e.1 dt st hw)
      · exact ih pairs w hw

lemma static_free_query_static_loop (i : ℕ) (dt st : ℝ) (rect : Rectangle)
    (entries : List (ℕ × Body)) (pairs : List (ℕ × ℕ)) (w : World)
    (hw : static_free w) :
    static_free (query_static_loop i dt st rect entries pairs w) := by
  induction entries generalizing pairs w with
  | nil => exact hw
  | cons e rest ih =>
      unfold query_static_loop
      split
      · split
        · exact ih pairs w hw
        · exact ih _ _ (static_free_push w i e.1 dt st hw)
      · exact ih pairs w hw

lemma static_free_update_collision_candidates (w : World) (i : ℕ) (dt st : ℝ)
    (hw : static_free w) :
    static_free (update_collision_candidates w i dt st) := by
  unfold update_collision_candidates
  cases alist_lookup w.moving_bodies i with
  | none => exact hw
  | some r =>
      dsimp only
      unfold query_collisions_with_static_bodies
      have h1 : static_free (query_collisions_with_moving_bodies w i dt st) := by
        unfold query_collisions_with_moving_bodies
        cases alist_lookup w.moving_bodies i with
        | none => exact hw
        | some r2 => exact static_free_query_moving_loop _ _ _ _ _ _ _ hw
      cases alist_lookup
          (query_collisions_with_moving_bodies w i dt st).moving_bodies i with
      | none => exact h1
      | some r3 => exact static_free_query_static_loop _ _ _ _ _ _ _ h1

lemma static_free_handle_contact (w : World) (a b : ℕ) (cur endt : ℝ)
    (hw : static_free w) : static_free (handle_contact w a b cur endt) := by
  unfold handle_contact
  exact static_free_predict_movement _ _ _
    (static_free_predict_movement _ _ _
      (static_free_remove_moving_body _ _
        (static_free_remove_moving_body _ _ hw)))

lemma update_body_forces_fst_is_static (ba bb : Body) :
    (update_body_forces ba bb).1.is_static = ba.is_static := by
  unfold update_body_forces
  dsimp only
  split <;> rfl

lemma update_body_forces_snd_is_static (ba bb : Body) :
    (update_body_forces ba bb).2.is_static = bb.is_static := by
  unfold update_body_forces
  dsimp only
  split <;> rfl

lemma static_free_events (w : World) (evs : List (ℕ × ℕ)) (hw : static_free w) :
    static_free { w with events := evs } := hw

lemma static_free_resolve_collision (w : World) (a b : ℕ)
    (toc cur endt : ℝ) (hw : static_free w) :
    static_free (resolve_collision w a b toc cur endt) := by
  unfold resolve_collision
  split
  · have h1 := static_free_set_body w a
      (body_update (get_body w a) (cur - (if toc = 0 then 1 / 100 else 0))) rfl hw
    have h2 := static_free_set_body _ b
      (body_update
        (get_body (set_body w a
          (body_update (get_body w a) (cur - (if toc = 0 then 1 / 100 else 0)))) b)
        (cur - (if toc = 0 then 1 / 100 else 0))) rfl h1
    refine static_free_events _ _ (static_free_handle_contact _ _ _ _ _ ?_)
    refine static_free_set_body _ _ _ ?_
      (static_free_set_body _ _ _ (update_body_forces_fst_is_static _ _) h2)
    rw [update_body_forces_snd_is_static,
      get_body_set_body_is_static _ _ _ (update_body_forces_fst_is_static _ _)]
  · exact static_free_events _ _ hw

lemma static_free_check_collision (w : World) (a b : ℕ)
    (toc cur endt : ℝ) (hw : static_free w) :
    static_free (check_collision w a b toc cur endt) := by
  unfold check_collision
  dsimp only
  repeat' split
  all_goals first
    | exact static_free_resolve_collision _ _ _ _ _ _ hw
    | exact hw

lemma static_free_candidates (w : World) (c : List (ℝ × ℕ × ℕ))
    (hw : static_free w) : static_free { w with collision_candidates := c } := hw

lemma static_free_detect_loop (n : ℕ) (w : World) (cur dt : ℝ)
    (hw : static_free w) : static_free (detect_loop n w cur dt) := by
  induction n generalizing w cur with
  | zero => exact hw
  | succ m ih =>
      unfold detect_loop
      cases pop_min w.collision_candidates with
      | none => exact hw
      | some pr =>
          exact ih _ _ (static_free_check_collision _ _ _ _ _ _
            (static_free_candidates _ _ hw))

lemma static_free_reset_tick (w : World) : static_free (reset_tick w) := by
  constructor
  · intro p hp
    simp [reset_tick] at hp
  · intro e he
    simp [reset_tick] at he

lemma static_free_predict_phase (w : World) (dt : ℝ) (hw : static_free w) :
    static_free (predict_phase w dt) := by
  unfold predict_phase
  generalize w.bodies.map (fun p => p.1) = l
  induction l generalizing w with
  | nil => exact hw
  | cons i rest ih => exact ih _ (static_free_predict_movement _ _ _ hw)

lemma static_free_broad_phase (w : World) (dt : ℝ) (hw : static_free w) :
    static_free (broad_phase w dt) := by
  unfold broad_phase
  generalize w.moving_bodies.map (fun p => p.1) = l
  induction l generalizing w with
  | nil => exact hw
  | cons i rest ih =>
      exact ih _ (static_free_update_collision_candidates _ _ _ _ hw)

lemma static_free_commit_phase (w : World) (dt : ℝ) (hw : static_free w) :
    static_free (commit_phase w dt) := by
  unfold commit_phase
  generalize w.moving_bodies.map (fun p => p.1) = l
  induction l generalizing w with
  | nil => exact hw
  | cons i rest ih => exact ih _ (static_free_set_body _ _ _ rfl hw)

/-- Claim C9: movement prediction registers a record and inserts a proxy only
for non-static bodies that actually move, and the static-body-free invariant
of the moving records and the movement index is preserved by every
state-transforming operation of a tick, holds right after RESET, and holds
at the end of the whole tick: at no point within a tick does a static body
hold a moving record or a swept proxy. -/
theorem claim9_static_bodies_never_tracked :
    (∀ (w : World) (i : ℕ) (dt : ℝ), (get_body w i).is_static = true →
      predict_movement w i dt = w) ∧
    (∀ w : World, static_free (reset_tick w)) ∧
    (∀ (w : World) (i : ℕ) (dt : ℝ), static_free w →
      static_free (predict_movement w i dt)) ∧
    (∀ (w : World) (i : ℕ), static_free w →
      static_free (remove_moving_body w i)) ∧
    (∀ (w : World) (i : ℕ) (dt st : ℝ), static_free w →
      static_free (update_collision_candidates w i dt st)) ∧
    (∀ (w : World) (a b : ℕ) (toc cur endt : ℝ), static_free w →
      static_free (check_collision w a b toc cur endt)) ∧
    (∀ (n : ℕ) (w : World) (cur dt : ℝ), static_free w →
      static_free (detect_loop n w cur dt)) ∧
    (∀ (w : World) (dt : ℝ), static_free (World.update w dt)) := by
  refine ⟨?_, static_free_reset_tick, static_free_predict_movement,
    static_free_remove_moving_body, static_free_update_collision_candidates,
    static_free_check_collision, static_free_detect_loop, ?_⟩
  · intro w i dt h
    unfold predict_movement
    rw [if_pos h]
  · intro w dt
    unfold World.update detect_collisions
    exact static_free_commit_phase _ _ (static_free_detect_loop _ _ _ _
      (static_free_broad_phase _ _ (static_free_predict_phase _ _
        (static_free_reset_tick w))))

/-- Witness for claim C9's theorem: the static target ball of the
moving-versus-static scenario is skipped whole by movement prediction. -/
theorem claim9_witness :
    (get_body WS0 1).is_static = true ∧ predict_movement WS0 1 2 = WS0 := by
  have h : (get_body WS0 1).is_static = true := by
    simp [get_body, alist_lookup, WS0, body_s1]
  exact ⟨h, claim9_static_bodies_never_tracked.1 WS0 1 2 h⟩

/-- Witness for claim C8's theorem: predicting the fast ball of the
two-moving-balls scenario for a tick of duration 2 records the rectangle
from (-5, 5) down to (45, -5). -/
theorem claim8_witness :
    alist_lookup (predict_movement WT0 0 2).moving_bodies 0 =
      some ((get_body WT0 0).position, predict_position (get_body WT0 0) 2,
        calculate_sweept_body (get_body WT0 0) (predict_position (get_body WT0 0) 2)) ∧
    (0, calculate_sweept_body (get_body WT0 0) (predict_position (get_body WT0 0) 2)) ∈
      (predict_movement WT0 0 2).movement_index := by
  refine claim8_swept_proxy.2 WT0 0 2 ?_ ?_
  · simp [get_body, alist_lookup, WT0, body_t0]
  · simp [get_body, alist_lookup, WT0, body_t0, predict_position]


lemma pair_eq_symm {p q : ℕ × ℕ} (h : pair_eq p q) : pair_eq q p := by
  unfold pair_eq at *
  omega

lemma pair_eq_trans {p q r : ℕ × ℕ} (h1 : pair_eq p q) (h2 : pair_eq q r) :
    pair_eq p r := by
  unfold pair_eq at *
  omega

lemma pair_mem_congr {l : List (ℕ × ℕ)} {p q : ℕ × ℕ} (h : pair_eq p q) :
    pair_mem l p ↔ pair_mem l q := by
  induction l with
  | nil => exact Iff.rfl
  | cons e rest ih =>
      simp only [pair_mem]
      exact or_congr
        ⟨fun h1 => pair_eq_trans (pair_eq_symm h) h1,
         fun h1 => pair_eq_trans h h1⟩ ih

lemma pair_count_append (l1 l2 : List (ℝ × ℕ × ℕ)) (p : ℕ × ℕ) :
    pair_count (l1 ++ l2) p = pair_count l1 p + pair_count l2 p := by
  induction l1 with
  | nil => simp [pair_count]
  | cons e rest ih =>
      simp only [List.cons_append, pair_count, List.append_eq]
      rw [ih]
      omega

lemma pair_count_push_le (w : World) (pa pb : ℕ) (dt st : ℝ) (p : ℕ × ℕ) :
    pair_count (push_to_collision_candidates w pa pb dt st).collision_candidates p ≤
      pair_count w.collision_candidates p + 1 := by
  unfold push_to_collision_candidates
  cases time_of_collision (get_body w pa) (get_body w pb) with
  | none => exact Nat.le_add_right _ _
  | some toc =>
      dsimp only
      split
      · rw [pair_count_append]
        simp only [pair_count]
        split <;> omega
      · exact Nat.le_add_right _ _

lemma pair_count_push_not (w : World) (pa pb : ℕ) (dt st : ℝ) (p : ℕ × ℕ)
    (h : ¬ pair_eq (pa, pb) p) :
    pair_count (push_to_collision_candidates w pa pb dt st).collision_candidates p =
      pair_count w.collision_candidates p := by
  unfold push_to_collision_candidates
  cases time_of_collision (get_body w pa) (get_body w pb) with
  | none => rfl
  | some toc =>
      dsimp only
      split
      · rw [pair_count_append]
        simp only [pair_count]
        rw [if_neg h]
        omega
      · rfl

lemma query_moving_loop_count (i : ℕ) (dt st : ℝ) (rect : Rectangle)
    (entries : List (ℕ × Rectangle)) :
    ∀ (pairs : List (ℕ × ℕ)) (w : World) (p : ℕ × ℕ),
      pair_count (query_moving_loop i dt st rect entries pairs w).collision_candidates p ≤
        pair_count w.collision_candidates p + (if pair_mem pairs p then 0 else 1) := by
  induction entries with
  | nil =>
      intro pairs w p
      unfold query_moving_loop
      split <;> omega
  | cons e rest ih =>
      intro pairs w p
      unfold query_moving_loop
      split
      · split
        · exact ih pairs w p
        · rename_i hcond hmem
          by_cases hp : pair_eq (i, e.1) p
          · have hnp : ¬ pair_mem pairs p := fun hm => hmem ((pair_mem_congr hp).mpr hm)
            have h1 := ih ((i, e.1) :: pairs) (push_to_collision_candidates w i e.1 dt st) p
            have h2 : pair_mem ((i, e.1) :: pairs) p := Or.inl (pair_eq_symm hp)
            rw [if_pos h2] at h1
            rw [if_neg hnp]
            have h3 := pair_count_push_le w i e.1 dt st p
            omega
          · have h1 := ih ((i, e.1) :: pairs) (push_to_collision_candidates w i e.1 dt st) p
            rw [pair_count_push_not w i e.1 dt st p hp] at h1
            have h4 : pair_mem ((i, e.1) :: pairs) p ↔ pair_mem pairs p := by
              simp only [pair_mem]
              constructor
              · rintro (h5 | h5)
                · exact absurd (pair_eq_symm h5) hp
                · exact h5
              · exact Or.inr
            by_cases hm : pair_mem pairs p
            · rw [if_pos (h4.mpr hm)] at h1
              rw [if_pos hm]
              omega
            · rw [if_neg (fun hh => hm (h4.mp hh))] at h1
              rw [if_neg hm]
              omega
      · exact ih pairs w p

lemma query_static_loop_count (i : ℕ) (dt st : ℝ) (rect : Rectangle)
    (entries : List (ℕ × Body)) :
    ∀ (pairs : List (ℕ × ℕ)) (w : World) (p : ℕ × ℕ),
      pair_count (query_static_loop i dt st rect entries pairs w).collision_candidates p ≤
        pair_count w.collision_candidates p + (if pair_mem pairs p then 0 else 1) := by
  induction entries with
  | nil =>
      intro pairs w p
      unfold query_static_loop
      split <;> omega
  | cons e rest ih =>
      intro pairs w p
      unfold query_static_loop
      split
      · split
        · exact ih pairs w p
        · rename_i hcond hmem
          by_cases hp : pair_eq (i, e.1) p
          · have hnp : ¬ pair_mem pairs p := fun hm => hmem ((pair_mem_congr hp).mpr hm)
            have h1 := ih ((i, e.1) :: pairs) (push_to_collision_candidates w i e.1 dt st) p
            have h2 : pair_mem ((i, e.1) :: pairs) p := Or.inl (pair_eq_symm hp)
            rw [if_pos h2] at h1
            rw [if_neg hnp]
            have h3 := pair_count_push_le w i e.1 dt st p
            omega
          · have h1 := ih ((i, e.1) :: pairs) (push_to_collision_candidates w i e.1 dt st) p
            rw [pair_count_push_not w i e.1 dt st p hp] at h1
            have h4 : pair_mem ((i, e.1) :: pairs) p ↔ pair_mem pairs p := by
              simp only [pair_mem]
              constructor
              · rintro (h5 | h5)
                · exact absurd (pair_eq_symm h5) hp
                · exact h5
              · exact Or.inr
            by_cases hm : pair_mem pairs p
            · rw [if_pos (h4.mpr hm)] at h1
              rw [if_pos hm]
              omega
            · rw [if_neg (fun hh => hm (h4.mp hh))] at h1
              rw [if_neg hm]
              omega
      · exact ih pairs w p

/-- Claim C3, amended: deduplication is per initiating body's query, not per
broad-phase pass.  A single call of the moving-bodies query, and a single
call of the static-bodies query, each enqueue any given unordered pair at
most once; across a whole pass a moving-moving pair is enqueued once by each
of its two members. -/
theorem claim3_per_query_dedup :
    (∀ (w : World) (i : ℕ) (dt st : ℝ) (p : ℕ × ℕ),
      pair_count (query_collisions_with_moving_bodies w i dt st).collision_candidates p ≤
        pair_count w.collision_candidates p + 1) ∧
    (∀ (w : World) (i : ℕ) (dt st : ℝ) (p : ℕ × ℕ),
      pair_count (query_collisions_with_static_bodies w i dt st).collision_candidates p ≤
        pair_count w.collision_candidates p + 1) := by
  constructor <;> intro w i dt st p
  · unfold query_collisions_with_moving_bodies
    cases alist_lookup w.moving_bodies i with
    | none => exact Nat.le_add_right _ _
    | some r =>
        have h := query_moving_loop_count i dt st r.2.2 w.movement_index [] w p
        rwa [if_neg (fun hh : pair_mem [] p => hh)] at h
  · unfold query_collisions_with_static_bodies
    cases alist_lookup w.moving_bodies i with
    | none => exact Nat.le_add_right _ _
    | some r =>
        have h := query_static_loop_count i dt st r.2.2 w.bodies [] w p
        rwa [if_neg (fun hh : pair_mem [] p => hh)] at h

lemma toc_eval_s :
    time_of_collision ⟨0, ⟨0, 0⟩, ⟨20, 0⟩, 5, 1, false, true⟩
      ⟨1, ⟨30, 0⟩, ⟨0, 0⟩, 5, 3, true, true⟩ = some 1 := by
  have ha : toc_a ⟨0, ⟨0, 0⟩, ⟨20, 0⟩, 5, 1, false, true⟩
      ⟨1, ⟨30, 0⟩, ⟨0, 0⟩, 5, 3, true, true⟩ = 400 := by
    norm_num [toc_a]
  have hb : toc_b ⟨0, ⟨0, 0⟩, ⟨20, 0⟩, 5, 1, false, true⟩
      ⟨1, ⟨30, 0⟩, ⟨0, 0⟩, 5, 3, true, true⟩ = -1200 := by
    norm_num [toc_b]
  have hd : toc_delta ⟨0, ⟨0, 0⟩, ⟨20, 0⟩, 5, 1, false, true⟩
      ⟨1, ⟨30, 0⟩, ⟨0, 0⟩, 5, 3, true, true⟩ = 160000 := by
    norm_num [toc_delta, toc_a, toc_b, toc_c, toc_distance]
  have hsq : Real.sqrt 160000 = 400 := by
    rw [show (160000 : ℝ) = 400 ^ 2 by norm_num]
    exact Real.sqrt_sq (by norm_num)
  have ht1 : toc_t1 ⟨0, ⟨0, 0⟩, ⟨20, 0⟩, 5, 1, false, true⟩
      ⟨1, ⟨30, 0⟩, ⟨0, 0⟩, 5, 3, true, true⟩ = 1 := by
    unfold toc_t1
    rw [ha, hb, hd, hsq]
    norm_num
  have ht2 : toc_t2 ⟨0, ⟨0, 0⟩, ⟨20, 0⟩, 5, 1, false, true⟩
      ⟨1, ⟨30, 0⟩, ⟨0, 0⟩, 5, 3, true, true⟩ = 2 := by
    unfold toc_t2
    rw [ha, hb, hd, hsq]
    norm_num
  unfold time_of_collision
  rw [hd, ha, ht1, ht2, hb]
  norm_num

lemma toc_eval_t01 :
    time_of_collision ⟨0, ⟨0, 0⟩, ⟨20, 0⟩, 5, 1, false, true⟩
      ⟨1, ⟨30, 0⟩, ⟨10, 0⟩, 5, 1, false, true⟩ = some 2 := by
  have ha : toc_a ⟨0, ⟨0, 0⟩, ⟨20, 0⟩, 5, 1, false, true⟩
      ⟨1, ⟨30, 0⟩, ⟨10, 0⟩, 5, 1, false, true⟩ = 100 := by
    norm_num [toc_a]
  have hb : toc_b ⟨0, ⟨0, 0⟩, ⟨20, 0⟩, 5, 1, false, true⟩
      ⟨1, ⟨30, 0⟩, ⟨10, 0⟩, 5, 1, false, true⟩ = -600 := by
    norm_num [toc_b]
  have hd : toc_delta ⟨0, ⟨0, 0⟩, ⟨20, 0⟩, 5, 1, false, true⟩
      ⟨1, ⟨30, 0⟩, ⟨10, 0⟩, 5, 1, false, true⟩ = 40000 := by
    norm_num [toc_delta, toc_a, toc_b, toc_c, toc_distance]
  have hsq : Real.sqrt 40000 = 200 := by
    rw [show (40000 : ℝ) = 200 ^ 2 by norm_num]
    exact Real.sqrt_sq (by norm_num)
  have ht1 : toc_t1 ⟨0, ⟨0, 0⟩, ⟨20, 0⟩, 5, 1, false, true⟩
      ⟨1, ⟨30, 0⟩, ⟨10, 0⟩, 5, 1, false, true⟩ = 2 := by
    unfold toc_t1
    rw [ha, hb, hd, hsq]
    norm_num
  have ht2 : toc_t2 ⟨0, ⟨0, 0⟩, ⟨20, 0⟩, 5, 1, false, true⟩
      ⟨1, ⟨30, 0⟩, ⟨10, 0⟩, 5, 1, false, true⟩ = 4 := by
    unfold toc_t2
    rw [ha, hb, hd, hsq]
    norm_num
  unfold time_of_collision
  rw [hd, ha, ht1, ht2, hb]
  norm_num

lemma toc_eval_t10 :
    time_of_collision ⟨1, ⟨30, 0⟩, ⟨10, 0⟩, 5, 1, false, true⟩
      ⟨0, ⟨0, 0⟩, ⟨20, 0⟩, 5, 1, false, true⟩ = some 2 := by
  rw [show time_of_collision ⟨1, ⟨30, 0⟩, ⟨10, 0⟩, 5, 1, false, true⟩
      ⟨0, ⟨0, 0⟩, ⟨20, 0⟩, 5, 1, false, true⟩ =
      time_of_collision ⟨0, ⟨0, 0⟩, ⟨20, 0⟩, 5, 1, false, true⟩
      ⟨1, ⟨30, 0⟩, ⟨10, 0⟩, 5, 1, false, true⟩ by
    unfold time_of_collision
    rw [toc_delta_comm, toc_a_comm, toc_b_comm, toc_t1_comm, toc_t2_comm]]
  exact toc_eval_t01

lemma detect_loop_zero (w : World) (cur dt : ℝ) : detect_loop 0 w cur dt = w := rfl

lemma detect_loop_succ_some (n : ℕ) (w : World) (cur dt : ℝ) (e : ℝ × ℕ × ℕ)
    (rest : List (ℝ × ℕ × ℕ)) (h : pop_min w.collision_candidates = some (e, rest)) :
    detect_loop (n + 1) w cur dt =
      detect_loop n (check_collision { w with collision_candidates := rest }
        e.2.1 e.2.2 e.1 cur dt) (cur + e.1) dt := by
  simp only [detect_loop, h]

lemma phase_eval_s_predict : predict_phase (reset_tick WS0) 2 = WS1 := by
  norm_num [predict_phase, reset_tick, WS0, WS1, body_s0, body_s1,
    predict_movement, get_body, alist_lookup, predict_position,
    calculate_sweept_body, alist_upsert, Point2D.mk.injEq, Rectangle.mk.injEq,
    Prod.mk.injEq, World.mk.injEq, Body.mk.injEq]


lemma phase_eval_s_broad : broad_phase WS1 2 = WS2 := by
  norm_num [broad_phase, WS1, WS2, body_s0, body_s1,
    update_collision_candidates, query_collisions_with_moving_bodies,
    query_collisions_with_static_bodies, query_moving_loop, query_static_loop,
    push_to_collision_candidates, alist_lookup, get_body, rect_overlap,
    circle_rect_overlap, pair_mem, pair_eq, toc_eval_s, Option.some_ne_none,
    Point2D.mk.injEq, Rectangle.mk.injEq, Prod.mk.injEq, World.mk.injEq,
    Body.mk.injEq]

lemma phase_eval_s_detect : detect_collisions WS2 2 = WS3 := by
  have hpop : pop_min WS2.collision_candidates = some ((1, 0, 1), []) := by
    simp [WS2, pop_min]
  have hlen : WS2.collision_candidates.length = 0 + 1 := by simp [WS2]
  unfold detect_collisions
  rw [hlen, detect_loop_succ_some 0 WS2 0 2 (1, 0, 1) [] hpop, detect_loop_zero]
  norm_num [check_collision, WS2, WS3, get_body, alist_lookup,
    predict_position, circles_collide, resolve_collision, body_s0, body_s1,
    set_body, body_update, update_body_forces, exchanged_velocities,
    handle_contact, remove_moving_body, predict_movement,
    calculate_sweept_body, alist_upsert, Option.some_ne_none,
    Point2D.mk.injEq, Rectangle.mk.injEq, Prod.mk.injEq, World.mk.injEq,
    Body.mk.injEq]

lemma phase_eval_s_commit : commit_phase WS3 2 = WS4 := by
  norm_num [commit_phase, WS3, WS4, set_body, get_body, alist_lookup,
    body_update, predict_position, Point2D.mk.injEq, Rectangle.mk.injEq,
    Prod.mk.injEq, World.mk.injEq, Body.mk.injEq]

lemma phase_eval_s_update : World.update WS0 2 = WS4 := by
  unfold World.update
  rw [phase_eval_s_predict, phase_eval_s_broad, phase_eval_s_detect,
    phase_eval_s_commit]

lemma phase_eval_t_predict : predict_phase (reset_tick WT0) 2 = WT1 := by
  norm_num [predict_phase, reset_tick, WT0, WT1, body_t0, body_t1,
    predict_movement, get_body, alist_lookup, predict_position,
    calculate_sweept_body, alist_upsert, Point2D.mk.injEq, Rectangle.mk.injEq,
    Prod.mk.injEq, World.mk.injEq, Body.mk.injEq]

lemma phase_eval_t_broad : broad_phase WT1 2 = WT2 := by
  norm_num [broad_phase, WT1, WT2, body_t0, body_t1,
    update_collision_candidates, query_collisions_with_moving_bodies,
    query_collisions_with_static_bodies, query_moving_loop, query_static_loop,
    push_to_collision_candidates, alist_lookup, get_body, rect_overlap,
    circle_rect_overlap, pair_mem, pair_eq, toc_eval_t01, toc_eval_t10,
    Option.some_ne_none, Point2D.mk.injEq, Rectangle.mk.injEq, Prod.mk.injEq,
    World.mk.injEq, Body.mk.injEq]

/-- Counterexample to claim C3 as stated: in the two-moving-balls scenario a
single broad-phase pass over the predicted state enqueues the unordered pair
of the two balls twice, once per initiating ball, because the dedup list is
local to each body's query. -/
theorem claim3_counterexample :
    pair_count (broad_phase (predict_phase (reset_tick WT0) 2) 2).collision_candidates
      (0, 1) = 2 := by
  rw [phase_eval_t_predict, phase_eval_t_broad]
  norm_num [WT2, pair_count, pair_eq]

/-- Claim C2, amended: when a resolved tangible contact is handled, both
bodies' records and proxies are removed and each body is re-predicted for
end_time minus current_time, where current_time is the sum of the
time-of-impact values of the previously popped candidates (0 for the first
popped candidate) - not tick duration minus this candidate's own time of
impact; records and proxies are reinserted only if the body is still moving
(a stationary prediction, or an absent record on removal, is a no-op). -/
theorem claim2_invalidate_and_repredict :
    (∀ (w : World) (a b : ℕ) (cur endt : ℝ),
      handle_contact w a b cur endt =
        predict_movement (predict_movement
          (remove_moving_body (remove_moving_body w a) b) a (endt - cur))
          b (endt - cur)) ∧
    (∀ (w : World) (i : ℕ), alist_lookup w.moving_bodies i = none →
      remove_moving_body w i = w) ∧
    (∀ (w : World) (i : ℕ) (dt : ℝ),
      predict_position (get_body w i) dt = (get_body w i).position →
      predict_movement w i dt = w) ∧
    (∀ (n : ℕ) (w : World) (cur dt : ℝ) (e : ℝ × ℕ × ℕ)
        (rest : List (ℝ × ℕ × ℕ)),
      pop_min w.collision_candidates = some (e, rest) →
      detect_loop (n + 1) w cur dt =
        detect_loop n (check_collision { w with collision_candidates := rest }
          e.2.1 e.2.2 e.1 cur dt) (cur + e.1) dt) := by
  refine ⟨fun w a b cur endt => rfl, ?_, ?_, ?_⟩
  · intro w i h
    unfold remove_moving_body
    rw [h]
  · intro w i dt h
    unfold predict_movement
    by_cases hs : (get_body w i).is_static
    · rw [if_pos hs]
    · rw [if_neg hs, if_pos h]
  · intro n w cur dt e rest h
    exact detect_loop_succ_some n w cur dt e rest h

/-- Witness for claim C2's amended theorem: the single candidate of the
moving-versus-static scenario, with time of impact 1, is processed at
current_time 0, and the accumulator then moves to 0 + 1. -/
theorem claim2_witness :
    detect_loop (0 + 1) WS2 0 2 =
      detect_loop 0 (check_collision { WS2 with collision_candidates := [] }
        0 1 1 0 2) (0 + 1) 2 := by
  have h : pop_min WS2.collision_candidates = some ((1, 0, 1), []) := by
    simp [WS2, pop_min]
  exact claim2_invalidate_and_repredict.2.2.2 0 WS2 0 2 (1, 0, 1) [] h

/-- Counterexample to claim C2 as stated: in the moving-versus-static
scenario the candidate is popped at time of impact 1 in a tick of duration 2,
but after the drain the mover's record covers a horizon of 2 (end position
(-20, 0) from start (0, 0) at post-exchange velocity (-10, 0)): the
re-prediction used the full duration, not duration minus time of impact,
which from the same state would have ended at (-10, 0). -/
theorem claim2_counterexample :
    (broad_phase (predict_phase (reset_tick WS0) 2) 2).collision_candidates =
      [(1, 0, 1)] ∧
    alist_lookup (detect_collisions
        (broad_phase (predict_phase (reset_tick WS0) 2) 2) 2).moving_bodies 0 =
      some (⟨0, 0⟩, ⟨-20, 0⟩, ⟨⟨-5, 5⟩, ⟨-15, -5⟩⟩) ∧
    predict_position
        (get_body (detect_collisions
          (broad_phase (predict_phase (reset_tick WS0) 2) 2) 2) 0) (2 - 1) ≠
      (⟨-20, 0⟩ : Point2D) := by
  rw [phase_eval_s_predict, phase_eval_s_broad, phase_eval_s_detect]
  refine ⟨by norm_num [WS2], by norm_num [WS3, alist_lookup], ?_⟩
  norm_num [WS3, get_body, alist_lookup, predict_position, Point2D.mk.injEq]

lemma set_body_lookup_isSome (w : World) (i : ℕ) (b : Body) (j : ℕ) :
    (alist_lookup (set_body w i b).bodies j).isSome =
      (alist_lookup w.bodies j).isSome := by
  unfold set_body
  dsimp only
  rw [alist_lookup_map_replace]
  by_cases hj : j = i
  · rw [if_pos hj]
    cases alist_lookup w.bodies j <;> rfl
  · rw [if_neg hj]

lemma get_body_set_body_ne (w : World) (i : ℕ) (b : Body) (j : ℕ) (h : j ≠ i) :
    get_body (set_body w i b) j = get_body w j := by
  unfold get_body set_body
  dsimp only
  rw [alist_lookup_map_replace, if_neg h]

lemma get_body_set_body_eq (w : World) (i : ℕ) (b : Body)
    (h : (alist_lookup w.bodies i).isSome = true) :
    get_body (set_body w i b) i = b := by
  unfold get_body set_body
  dsimp only
  rw [alist_lookup_map_replace, if_pos rfl]
  cases hl : alist_lookup w.bodies i
  · rw [hl] at h
    simp at h
  · rfl

lemma get_body_set_body_none (w : World) (i : ℕ) (b : Body)
    (h : alist_lookup w.bodies i = none) :
    get_body (set_body w i b) i = get_body w i := by
  unfold get_body set_body
  dsimp only
  rw [alist_lookup_map_replace, if_pos rfl, h]
  rfl

lemma commit_fold (dt : ℝ) (l : List ℕ) :
    ∀ (w : World) (j : ℕ), l.Nodup →
      get_body (l.foldl
          (fun acc i => set_body acc i (body_update (get_body acc i) dt)) w) j =
        if j ∈ l ∧ (alist_lookup w.bodies j).isSome = true
        then body_update (get_body w j) dt else get_body w j := by
  induction l with
  | nil =>
      intro w j _
      rw [List.foldl_nil, if_neg (fun hc => List.not_mem_nil j hc.1)]
  | cons i rest ih =>
      intro w j hnd
      have hni : i ∉ rest := (List.nodup_cons.mp hnd).1
      have hndr : rest.Nodup := (List.nodup_cons.mp hnd).2
      rw [List.foldl_cons, ih _ j hndr, set_body_lookup_isSome]
      by_cases hji : j = i
      · subst hji
        rw [if_neg (fun hc => hni hc.1)]
        by_cases hs : (alist_lookup w.bodies j).isSome = true
        · rw [get_body_set_body_eq w j _ hs,
            if_pos ⟨List.mem_cons_self j rest, hs⟩]
        · have hnone : alist_lookup w.bodies j = none := by
            cases hl : alist_lookup w.bodies j
            · rfl
            · rw [hl] at hs
              simp at hs
          rw [get_body_set_body_none w j _ hnone, if_neg (fun hc => hs hc.2)]
      · rw [get_body_set_body_ne w i _ j hji]
        have hmem : (j ∈ i :: rest) ↔ (j ∈ rest) := by
          simp [List.mem_cons, hji]
        by_cases hc : j ∈ rest ∧ (alist_lookup w.bodies j).isSome = true
        · rw [if_pos hc, if_pos ⟨List.mem_cons_of_mem _ hc.1, hc.2⟩]
        · rw [if_neg hc, if_neg (fun hc2 => hc ⟨hmem.mp hc2.1, hc2.2⟩)]

/-- Claim C6, amended: at COMMIT every body that holds a moving record at the
end of the drain - including a body whose contact was resolved mid-tick and
which was re-predicted and re-registered because it was still moving - is
advanced by the full tick duration; only bodies without a record at that
point are left alone.  A resolved still-moving body is therefore advanced by
the full tick duration on top of its incremental advance, not excluded. -/
theorem claim6_commit_advances_all_records (w : World) (dt : ℝ) (j : ℕ)
    (hnd : (w.moving_bodies.map fun p => p.1).Nodup) :
    get_body (commit_phase w dt) j =
      if j ∈ (w.moving_bodies.map fun p => p.1) ∧
          (alist_lookup w.bodies j).isSome = true
      then body_update (get_body w j) dt
      else get_body w j := by
  unfold commit_phase
  exact commit_fold dt _ w j hnd

/-- Witness for claim C6's amended theorem: committing the post-drain state
of the moving-versus-static scenario advances the re-predicted resolved
mover by the full tick duration. -/
theorem claim6_witness :
    get_body (commit_phase WS3 2) 0 =
      if 0 ∈ (WS3.moving_bodies.map fun p => p.1) ∧
          (alist_lookup WS3.bodies 0).isSome = true
      then body_update (get_body WS3 0) 2
      else get_body WS3 0 :=
  claim6_commit_advances_all_records WS3 2 0 (by simp [WS3])

/-- Counterexample to claim C6 as stated: in the moving-versus-static
scenario the mover's contact is resolved mid-tick (both callbacks fired and
its velocity was exchanged), it still holds a re-predicted moving record at
the end of the drain with position (0, 0), and COMMIT then advances it by
the full tick duration to (-20, 0) - it is not excluded from the
full-duration commit. -/
theorem claim6_counterexample :
    (detect_collisions (broad_phase (predict_phase (reset_tick WS0) 2) 2) 2).events =
      [(0, 1), (1, 0)] ∧
    alist_lookup (detect_collisions
        (broad_phase (predict_phase (reset_tick WS0) 2) 2) 2).moving_bodies 0 ≠
      none ∧
    (get_body (detect_collisions
        (broad_phase (predict_phase (reset_tick WS0) 2) 2) 2) 0).position =
      (⟨0, 0⟩ : Point2D) ∧
    (get_body (World.update WS0 2) 0).position = (⟨-20, 0⟩ : Point2D) := by
  rw [phase_eval_s_predict, phase_eval_s_broad, phase_eval_s_detect,
    phase_eval_s_update]
  refine ⟨by norm_num [WS3], ?_, ?_, ?_⟩
  · norm_num [WS3, alist_lookup, Option.some_ne_none]
  · norm_num [WS3, get_body, alist_lookup]
  · norm_num [WS4, get_body, alist_lookup]
